import Mathlib

/-!
Verification development for the esbuild-py dispatch-and-execution layer.

The Python sources embedded here are:
- `src/esbuild_py/__init__.py` (backend selection and the public facade),
- `src/esbuild_py/_native_backend.py` (ctypes adapter for the native library),
- `src/esbuild_py/_wasm_backend.py` (wasmtime sandboxed adapter).

Pure functions become Lean functions; exceptions become explicit outcome
types; foreign and sandboxed execution become parameters describing the
external behaviour; filesystem and FFI side effects become event traces.
-/

set_option maxHeartbeats 1000000

/-- Keyword options passed by the caller, as an association list of
string keys and (opaque, represented as string) values, in insertion
order, mirroring a Python `dict` built from `**kwargs`. -/
abbrev Opts := List (String × String)

/-- `os.path.join a b` for the absolute paths used by the adapter. -/
def joinPath (a b : String) : String := a ++ "/" ++ b

/-- `'_esbuild' + ext_suffix` from `NativeBackend._get_lib_path`. -/
def soFileName (extSuffix : String) : String := "_esbuild" ++ extSuffix

/-- The path checked inside the `for d in site.getsitepackages()` loop:
`os.path.join(d, "esbuild_py", so_filename)`. -/
def sitePath (d : String) (extSuffix : String) : String :=
  joinPath (joinPath d "esbuild_py") (soFileName extSuffix)

/-- The fallback loop of `NativeBackend._get_lib_path`: scan the
site-packages directories in order and return the first existing path. -/
def scanSite (fsExists : String → Bool) (filename : String) : List String → Option String
  | [] => none
  | d :: rest =>
    let p := joinPath (joinPath d "esbuild_py") filename
    if fsExists p then some p else scanSite fsExists filename rest

/-- `NativeBackend._get_lib_path`: check the primary path (package
directory joined with the library filename) first; on a miss, scan the
site-packages directories; `none` models returning Python `None`. -/
def getLibPath (fsExists : String → Bool) (packageDir extSuffix : String)
    (siteDirs : List String) : Option String :=
  let primaryPath := joinPath packageDir (soFileName extSuffix)
  if fsExists primaryPath then some primaryPath
  else scanSite fsExists (soFileName extSuffix) siteDirs

/-- Dynamic class of the Python exceptions that the embedded code can
raise or catch during backend initialization. -/
inductive ExcClass where
  /-- an `import` statement failed -/
  | importError
  /-- the `FileNotFoundError` class, as raised by `NativeBackend.__init__` -/
  | fileNotFoundError
  /-- a plain `OSError` from `ctypes.cdll.LoadLibrary` (ABI mismatch, OS loader error) -/
  | osError
  /-- an `AttributeError` from accessing a missing exported symbol on the loaded library -/
  | attributeError
  deriving DecidableEq, Repr

/-- A loaded shared library, abstracted to whether it exports the two
required symbols (`transform` and `free`). -/
structure LoadedLib where
  hasTransform : Bool
  hasFree : Bool
  deriving DecidableEq, Repr

/-- `NativeBackend.__init__`: resolve the library path (raising
`FileNotFoundError` when `_get_lib_path` returns `None`), load it (an
`OSError` from the loader is logged and re-raised), then look up the
`transform` and `free` symbols (a missing symbol raises
`AttributeError`). `load` describes what `ctypes.cdll.LoadLibrary` does
at each path. -/
def nativeConstruct (fsExists : String → Bool) (packageDir extSuffix : String)
    (siteDirs : List String) (load : String → Except ExcClass LoadedLib) :
    Except ExcClass Unit :=
  match getLibPath fsExists packageDir extSuffix siteDirs with
  | none => .error .fileNotFoundError
  | some p =>
    match load p with
    | .error e => .error e
    | .ok lib =>
      if lib.hasTransform = false then .error .attributeError
      else if lib.hasFree = false then .error .attributeError
      else .ok ()

/-- The exception classes caught by the two `except (ImportError,
FileNotFoundError)` clauses in `__init__.py`. -/
def caughtByFallback : ExcClass → Bool
  | .importError => true
  | .fileNotFoundError => true
  | .osError => false
  | .attributeError => false

/-- The backend instance held in the module-global `_backend_instance`. -/
inductive BackendInstance where
  | nativeInst
  | wasmInst
  deriving DecidableEq, Repr

/-- The module-global state set up by `__init__.py`: the `BACKEND`
string and the `_backend_instance` reference (`none` models Python
`None`). -/
structure ModuleState where
  BACKEND : String
  backendInstance : Option BackendInstance
  deriving DecidableEq, Repr

/-- Module initialization of `__init__.py` lines 22-39: try the native
backend, catching `(ImportError, FileNotFoundError)`; on such a failure
fall back to the wasm backend under the same catch clause; if that also
fails with a caught class, record `BACKEND = "none"` and no instance.
`nat` and `was` are the outcomes of importing-and-constructing each
backend; an uncaught exception propagates out of the module import. -/
def moduleInit (nat was : Except ExcClass Unit) : Except ExcClass ModuleState :=
  match nat with
  | .ok _ => .ok ⟨"native", some .nativeInst⟩
  | .error e =>
    if caughtByFallback e then
      match was with
      | .ok _ => .ok ⟨"wasm", some .wasmInst⟩
      | .error e2 =>
        if caughtByFallback e2 then .ok ⟨"none", none⟩
        else .error e2
    else .error e

/-- Result of a public API call: a returned value or a raised exception
carrying its message. -/
inductive CallResult (α : Type) where
  | ok (a : α)
  | raised (msg : String)
  deriving DecidableEq, Repr

/-- The `RuntimeError` message raised by the public `transform` when no
backend is available (`__init__.py` lines 60-65; Python concatenates the
adjacent string literals). -/
def transformUnavailableMsg : String :=
  "Neither the native nor the WASM esbuild backend could be initialized. " ++
  "This is likely due to a failed installation or a missing dependency. \n" ++
  "Please try reinstalling the package. If the problem persists, please open an issue at: \n" ++
  "https://github.com/esbuild-kit/esbuild-py/issues"

/-- The `RuntimeError` message raised by the public `build` when no
backend is available (`__init__.py` lines 91-94). -/
def buildUnavailableMsg : String :=
  "No esbuild backend is available. The native library may be missing " ++
  "or the WASM fallback failed."

/-- The public `transform` facade: raise the unavailability error when
`_backend_instance is None`, otherwise delegate to the active backend
(`delegate` is the bound `transform` method of the instance). -/
def transformFacade (st : ModuleState)
    (delegate : BackendInstance → CallResult String) : CallResult String :=
  match st.backendInstance with
  | none => .raised transformUnavailableMsg
  | some i => delegate i

/-- A diagnostic entry of a response; only the `text` field matters to
this layer, and the field may be absent. -/
structure Diagnostic where
  text : Option String
  deriving DecidableEq, Repr

/-- A build result dictionary with its `errors` and `warnings` lists. -/
structure BuildResult where
  errors : List Diagnostic
  warnings : List Diagnostic
  deriving DecidableEq, Repr

/-- The public `build` facade: raise the unavailability error when
`_backend_instance is None`, otherwise delegate to the active backend
(`delegate` is the bound `build` method of the instance). -/
def buildFacade (st : ModuleState)
    (delegate : BackendInstance → CallResult BuildResult) : CallResult BuildResult :=
  match st.backendInstance with
  | none => .raised buildUnavailableMsg
  | some i => delegate i

/-- Modelled from the spec: the adapters' `build` methods are not among
the provided sources (only the facade that calls them and the tests that
exercise them are). Per the spec, an adapter's `build` runs the external
compiler and yields a dictionary with `errors` and `warnings` lists, or
raises its error; the call surfaces that outcome unchanged. `outcome`
is what the adapter's build produced. -/
def adapterBuild (outcome : Except String BuildResult) : CallResult BuildResult :=
  match outcome with
  | .error m => .raised m
  | .ok r => .ok r

/-- Option normalization shared verbatim by both adapters:
`options = kwargs.copy()`, then `if 'loader' not in options:
options['loader'] = 'jsx'` (a fresh key is appended in dict insertion
order). -/
def normalizeOptions (kwargs : Opts) : Opts :=
  if kwargs.lookup "loader" = none then kwargs ++ [("loader", "jsx")]
  else kwargs

/-- The native request envelope built by `NativeBackend.transform`. -/
structure NativeRequest where
  code : String
  options : Opts
  deriving DecidableEq, Repr

/-- `NativeBackend.transform` lines 87-91: normalize a copy of the
options and wrap the request. -/
def buildNativeRequest (code : String) (kwargs : Opts) : NativeRequest :=
  { code := code, options := normalizeOptions kwargs }

/-- The sandbox request envelope built by `WasmBackend.transform`. -/
structure WasmRequest where
  command : String
  input : String
  options : Opts
  deriving DecidableEq, Repr

/-- `WasmBackend.transform` lines 52-60: normalize a copy of the options
and wrap the request with the `"transform"` command discriminator. -/
def buildWasmRequest (code : String) (kwargs : Opts) : WasmRequest :=
  { command := "transform", input := code, options := normalizeOptions kwargs }

/-- The response envelope returned by the native library, after UTF-8
decoding and JSON parsing (`none` fields model absent keys). -/
structure NativeResponse where
  code : Option String
  errors : Option (List Diagnostic)
  deriving DecidableEq, Repr

/-- Python truthiness of `response.get('errors')`: falsy when the key is
absent (`None`) or the list is empty. -/
def pyTruthyList : Option (List Diagnostic) → Bool
  | none => false
  | some l => !l.isEmpty

/-- What the foreign `transform` call returns for a given request: a
null pointer, or an owned buffer whose combined UTF-8 decode and JSON
parse either fails (`buffer none`) or yields a response. -/
inductive FfiResult where
  | nullPtr
  | buffer (decoded : Option NativeResponse)
  deriving DecidableEq, Repr

/-- Whether the foreign call returned a non-null pointer. -/
def FfiResult.nonNull : FfiResult → Bool
  | .nullPtr => false
  | .buffer _ => true

/-- Outcome of `NativeBackend.transform`: a returned string or one of
the exceptions its body can raise. -/
inductive NativeOutcome where
  | ok (code : String)
  /-- the `RuntimeError` raised on a NULL pointer -/
  | nullPtrError (msg : String)
  /-- a `UnicodeDecodeError` or `json.JSONDecodeError` propagating from the decode -/
  | decodeError
  /-- the `RuntimeError` raised when the response reports errors -/
  | transformFailed (msg : String)
  deriving DecidableEq, Repr

/-- `NativeBackend.transform` lines 110-116: response processing. The
guard is `response.get('errors') and len(response['errors']) > 0`; on
failure the message joins each diagnostic's `text`
(`e.get('text', 'Unknown error')`) with `', '`; on success it returns
`response.get('code', '')`. -/
def nativeProcess (r : NativeResponse) : NativeOutcome :=
  if pyTruthyList r.errors = true ∧ (r.errors.getD []).length > 0 then
    let msgs := (r.errors.getD []).map (fun e => e.text.getD "Unknown error")
    .transformFailed ("esbuild transformation failed: " ++ String.intercalate ", " msgs)
  else
    .ok (r.code.getD "")

/-- FFI events observable from outside `NativeBackend.transform`. -/
inductive NativeEvent where
  /-- the foreign `transform` entry point was invoked -/
  | callForeignTransform
  /-- the foreign `free` entry point was invoked -/
  | callForeignFree
  deriving DecidableEq, Repr

/-- Number of `free` invocations in an FFI event trace. -/
def freeCount : List NativeEvent → Nat
  | [] => 0
  | .callForeignFree :: t => freeCount t + 1
  | .callForeignTransform :: t => freeCount t

/-- `NativeBackend.transform` lines 85-123 as a whole, with its FFI
event trace. `ffi` describes the foreign library's behaviour on the
encoded request. The `try` body raises on a null pointer (nothing to
release), else decodes and processes the response; the `finally` block
frees the buffer exactly when `result_ptr` is truthy. -/
def nativeTransform (code : String) (kwargs : Opts)
    (ffi : NativeRequest → FfiResult) : NativeOutcome × List NativeEvent :=
  let request := buildNativeRequest code kwargs
  match ffi request with
  | .nullPtr =>
    (.nullPtrError "esbuild transform function returned a NULL pointer.",
     [.callForeignTransform])
  | .buffer none => (.decodeError, [.callForeignTransform, .callForeignFree])
  | .buffer (some r) => (nativeProcess r, [.callForeignTransform, .callForeignFree])

/-- The response envelope read back from the sandbox's output file
(`none` models an absent key or a JSON `null`, which Python's
`dict.get` both report as `None`). -/
structure WasmResponse where
  error : Option String
  code : Option String
  deriving DecidableEq, Repr

/-- Python truthiness of `response.get("error")`: falsy when the key is
absent, `null`, or the empty string. -/
def pyTruthyStr : Option String → Bool
  | none => false
  | some s => !(s == "")

/-- How the sandbox entry point terminated. -/
inductive RunStatus where
  /-- the `_start` call returned without raising -/
  | returned
  /-- a `WasmtimeError` whose text contains `Exited with i32 exit status 0` -/
  | exitZero
  /-- any other `WasmtimeError` (trap or non-zero exit) -/
  | failed
  deriving DecidableEq, Repr

/-- Observable behaviour of one sandbox execution: how the entry point
terminated and the content left in the merged stdout/stderr file. -/
structure WasmExec where
  status : RunStatus
  output : String
  deriving DecidableEq, Repr

/-- Outcome of `WasmBackend.transform`: a returned string or one of the
exceptions its body can raise. -/
inductive WasmOutcome where
  | ok (code : String)
  /-- the `RuntimeError` raised on a non-clean sandbox exit -/
  | execFailed (msg : String)
  /-- the `RuntimeError` raised when the output file is empty -/
  | emptyResponse (msg : String)
  /-- a `json.JSONDecodeError` propagating from `json.loads` -/
  | decodeError
  /-- the `RuntimeError` raised when the response carries a truthy error field -/
  | transformFailed (msg : String)
  deriving DecidableEq, Repr

/-- `WasmBackend.transform` lines 100-113: read the output file content
in full; empty content raises; otherwise parse JSON (`parse` stands for
`json.loads`), raise when the walrus-tested `error` field is truthy,
else return `response.get("code", "")`. -/
def wasmRespond (parse : String → Option WasmResponse) (output : String) : WasmOutcome :=
  if output == "" then
    .emptyResponse "esbuild WASM process returned no data."
  else
    match parse output with
    | none => .decodeError
    | some resp =>
      if pyTruthyStr resp.error then
        .transformFailed ("esbuild transformation failed: " ++ resp.error.getD "")
      else
        .ok (resp.code.getD "")

/-- The `try` body of `WasmBackend.transform` after the files are
prepared: a non-clean termination of `_start` raises the execution
error carrying the captured output file content (the source f-string
spells the separator `\\n`, a literal backslash and `n`); a return or a
clean status-0 exit continues into response handling. -/
def wasmTransformBody (exec : WasmExec)
    (parse : String → Option WasmResponse) : WasmOutcome :=
  match exec.status with
  | .failed => .execFailed ("esbuild WASM execution failed:\\n" ++ exec.output)
  | .returned => wasmRespond parse exec.output
  | .exitZero => wasmRespond parse exec.output

/-- The two temporary channel files of one sandboxed call. -/
inductive ChannelFile where
  | stdinF
  | stdoutF
  deriving DecidableEq, Repr

/-- Filesystem events on the channel files. -/
inductive FsEvent where
  | create (f : ChannelFile)
  | unlink (f : ChannelFile)
  deriving DecidableEq, Repr

/-- Whether a channel file exists after a trace of filesystem events
(neither file exists beforehand; later events win). -/
def existsAfter (trace : List FsEvent) (f : ChannelFile) : Bool :=
  trace.foldl
    (fun st e =>
      match e with
      | .create g => if g = f then true else st
      | .unlink g => if g = f then false else st)
    false

/-- `WasmBackend.transform` lines 45-118 as a whole, with its
filesystem event trace: both `NamedTemporaryFile`s are created up
front, the `try` body runs the sandbox (`run` describes the compiled
module's behaviour on the request written to the input file), and the
`finally` block unlinks both files on every exit path. -/
def wasmTransform (code : String) (kwargs : Opts)
    (run : WasmRequest → WasmExec) (parse : String → Option WasmResponse) :
    WasmOutcome × List FsEvent :=
  let request := buildWasmRequest code kwargs
  let pre : List FsEvent := [.create .stdinF, .create .stdoutF]
  let outcome := wasmTransformBody (run request) parse
  let fin : List FsEvent := [.unlink .stdinF, .unlink .stdoutF]
  (outcome, pre ++ fin)

theorem lookup_append_of_some (l1 l2 : Opts) (k v : String)
    (h : l1.lookup k = some v) : (l1 ++ l2).lookup k = some v := by
  induction l1 with
  | nil => simp [List.lookup] at h
  | cons p t ih =>
    obtain ⟨a, b⟩ := p
    simp only [List.cons_append, List.lookup] at h ⊢
    cases hk : (k == a) with
    | true => simpa [hk] using h
    | false => rw [hk] at h; exact ih h

theorem lookup_append_of_none (l1 l2 : Opts) (k : String)
    (h : l1.lookup k = none) : (l1 ++ l2).lookup k = l2.lookup k := by
  induction l1 with
  | nil => rfl
  | cons p t ih =>
    obtain ⟨a, b⟩ := p
    simp only [List.cons_append, List.lookup] at h ⊢
    cases hk : (k == a) with
    | true => rw [hk] at h; exact absurd h (by simp)
    | false => rw [hk] at h; exact ih h

theorem normalizeOptions_mem (kwargs : Opts) (p : String × String)
    (h : p ∈ kwargs) : p ∈ normalizeOptions kwargs := by
  unfold normalizeOptions
  split
  · exact List.mem_append_left _ h
  · exact h

theorem normalizeOptions_lookup_some (kwargs : Opts) (k v : String)
    (h : kwargs.lookup k = some v) :
    (normalizeOptions kwargs).lookup k = some v := by
  unfold normalizeOptions
  split
  · exact lookup_append_of_some _ _ _ _ h
  · exact h

theorem normalizeOptions_loader_absent (kwargs : Opts)
    (h : kwargs.lookup "loader" = none) :
    (normalizeOptions kwargs).lookup "loader" = some "jsx" := by
  unfold normalizeOptions
  rw [if_pos h, lookup_append_of_none _ _ _ h]
  rfl

theorem normalizeOptions_loader_present (kwargs : Opts) (v : String)
    (h : kwargs.lookup "loader" = some v) : normalizeOptions kwargs = kwargs := by
  unfold normalizeOptions
  rw [if_neg]
  simp [h]

/-- C5: for every transform request, both adapters build the encoded
options from a copy of the caller-supplied options, preserving every
supplied key-value pair, and inject `loader = "jsx"` exactly when the
caller omitted the `loader` key; a supplied `loader` value is never
overwritten (the options are then left untouched). -/
theorem C5_options_normalization (code : String) (kwargs : Opts) :
    (∀ p ∈ kwargs,
      p ∈ (buildNativeRequest code kwargs).options ∧
      p ∈ (buildWasmRequest code kwargs).options) ∧
    (∀ k v, kwargs.lookup k = some v →
      (buildNativeRequest code kwargs).options.lookup k = some v ∧
      (buildWasmRequest code kwargs).options.lookup k = some v) ∧
    (kwargs.lookup "loader" = none →
      (buildNativeRequest code kwargs).options.lookup "loader" = some "jsx" ∧
      (buildWasmRequest code kwargs).options.lookup "loader" = some "jsx") ∧
    (∀ v, kwargs.lookup "loader" = some v →
      (buildNativeRequest code kwargs).options = kwargs ∧
      (buildWasmRequest code kwargs).options = kwargs) := by
  refine ⟨?_, ?_, ?_, ?_⟩
  · intro p hp
    exact ⟨normalizeOptions_mem kwargs p hp, normalizeOptions_mem kwargs p hp⟩
  · intro k v h
    exact ⟨normalizeOptions_lookup_some kwargs k v h,
      normalizeOptions_lookup_some kwargs k v h⟩
  · intro h
    exact ⟨normalizeOptions_loader_absent kwargs h,
      normalizeOptions_loader_absent kwargs h⟩
  · intro v h
    exact ⟨normalizeOptions_loader_present kwargs v h,
      normalizeOptions_loader_present kwargs v h⟩

/-- C5 witness: on `kwargs = [("minify", "true")]`, the loader default
is injected and the supplied pair survives in both adapters. -/
theorem C5_options_normalization_witness :
    (buildNativeRequest "x" [("minify", "true")]).options.lookup "loader"
      = some "jsx" ∧
    (buildWasmRequest "x" [("minify", "true")]).options.lookup "minify"
      = some "true" :=
  ⟨((C5_options_normalization "x" [("minify", "true")]).2.2.1 rfl).1,
   ((C5_options_normalization "x" [("minify", "true")]).2.1 "minify" "true" rfl).2⟩

/-- C1: for every native transform call, the foreign `free` is invoked
exactly once iff the foreign `transform` call returned a non-null
pointer, on every exit path; when the pointer is null the call raises
the NULL-pointer error and performs no release. -/
theorem C1_exactly_once_release (code : String) (kwargs : Opts)
    (ffi : NativeRequest → FfiResult) :
    freeCount (nativeTransform code kwargs ffi).2
      = (if (ffi (buildNativeRequest code kwargs)).nonNull then 1 else 0) ∧
    (ffi (buildNativeRequest code kwargs) = .nullPtr →
      (nativeTransform code kwargs ffi).1
        = .nullPtrError "esbuild transform function returned a NULL pointer." ∧
      freeCount (nativeTransform code kwargs ffi).2 = 0) := by
  constructor
  · cases h : ffi (buildNativeRequest code kwargs) with
    | nullPtr => simp [nativeTransform, h, freeCount, FfiResult.nonNull]
    | buffer d =>
      cases d <;> simp [nativeTransform, h, freeCount, FfiResult.nonNull]
  · intro h
    constructor
    · simp [nativeTransform, h]
    · simp [nativeTransform, h, freeCount]

/-- C1 witness: with a foreign call that returns null, the native
transform raises the NULL-pointer error and performs no release. -/
theorem C1_exactly_once_release_witness :
    (nativeTransform "x" [] (fun _ => FfiResult.nullPtr)).1
      = .nullPtrError "esbuild transform function returned a NULL pointer." ∧
    freeCount (nativeTransform "x" [] (fun _ => FfiResult.nullPtr)).2 = 0 :=
  (C1_exactly_once_release "x" [] (fun _ => FfiResult.nullPtr)).2 rfl

/-- C4: for every sandboxed transform call — whatever the sandbox run
and the JSON parse do, hence on success, execution failure, empty
response, decode failure and compiler-reported error alike — neither
channel file exists after the call returns. -/
theorem C4_channel_cleanup (code : String) (kwargs : Opts)
    (run : WasmRequest → WasmExec) (parse : String → Option WasmResponse)
    (f : ChannelFile) :
    existsAfter (wasmTransform code kwargs run parse).2 f = false := by
  cases f <;> rfl

/-- C6: for every decoded native response, a present and non-empty
`errors` sequence makes the native transform raise the failure whose
message joins each diagnostic's text (`'Unknown error'` standing in for
an absent text field) with a comma separator; otherwise the call
returns the `code` field, empty string when absent. -/
theorem C6_native_error_aggregation (code : String) (kwargs : Opts)
    (ffi : NativeRequest → FfiResult) (r : NativeResponse)
    (hffi : ffi (buildNativeRequest code kwargs) = .buffer (some r)) :
    (∀ errs, r.errors = some errs → errs ≠ [] →
      (nativeTransform code kwargs ffi).1 = .transformFailed
        ("esbuild transformation failed: " ++
          String.intercalate ", "
            (errs.map (fun e => e.text.getD "Unknown error")))) ∧
    ((r.errors = none ∨ r.errors = some []) →
      (nativeTransform code kwargs ffi).1 = .ok (r.code.getD "")) := by
  constructor
  · intro errs he hne
    have hlen : 0 < errs.length := List.length_pos.mpr hne
    simp [nativeTransform, hffi, nativeProcess, he, pyTruthyList, hne, hlen]
  · intro h
    rcases h with h | h <;>
      simp [nativeTransform, hffi, nativeProcess, h, pyTruthyList]

/-- C6 witness: a response with two diagnostics (one lacking a text
field) produces the joined failure message. -/
theorem C6_native_error_aggregation_witness :
    (nativeTransform "x" []
        (fun _ => FfiResult.buffer
          (some ⟨some "out", some [⟨some "boom"⟩, ⟨none⟩]⟩))).1
      = .transformFailed "esbuild transformation failed: boom, Unknown error" :=
  (C6_native_error_aggregation "x" []
      (fun _ => FfiResult.buffer
        (some ⟨some "out", some [⟨some "boom"⟩, ⟨none⟩]⟩))
      ⟨some "out", some [⟨some "boom"⟩, ⟨none⟩]⟩ rfl).1
    [⟨some "boom"⟩, ⟨none⟩] rfl (by decide)

/-- C7: for every sandboxed transform call whose execution completes
(no trap, whether `_start` returned or exited cleanly with status 0):
empty output raises the empty-response error; otherwise the JSON-parsed
response either carries a populated `error` field, raising the
transformation failure with that message, or its `code` field (empty
string when absent) is returned. -/
theorem C7_wasm_response_handling (code : String) (kwargs : Opts)
    (run : WasmRequest → WasmExec) (parse : String → Option WasmResponse)
    (hdone : (run (buildWasmRequest code kwargs)).status ≠ .failed) :
    ((run (buildWasmRequest code kwargs)).output = "" →
      (wasmTransform code kwargs run parse).1
        = .emptyResponse "esbuild WASM process returned no data.") ∧
    (∀ resp s, (run (buildWasmRequest code kwargs)).output ≠ "" →
      parse (run (buildWasmRequest code kwargs)).output = some resp →
      (resp.error = some s → s ≠ "" →
        (wasmTransform code kwargs run parse).1
          = .transformFailed ("esbuild transformation failed: " ++ s)) ∧
      (pyTruthyStr resp.error = false →
        (wasmTransform code kwargs run parse).1 = .ok (resp.code.getD ""))) := by
  have hbody : (wasmTransform code kwargs run parse).1
      = wasmRespond parse (run (buildWasmRequest code kwargs)).output := by
    cases hst : (run (buildWasmRequest code kwargs)).status with
    | returned => simp [wasmTransform, wasmTransformBody, hst]
    | exitZero => simp [wasmTransform, wasmTransformBody, hst]
    | failed => exact absurd hst hdone
  constructor
  · intro hout
    rw [hbody, hout]
    rfl
  · intro resp s hout hparse
    constructor
    · intro herr hs
      rw [hbody]
      simp [wasmRespond, hout, hparse, pyTruthyStr, herr, hs]
    · intro hfalsy
      rw [hbody]
      simp [wasmRespond, hout, hparse, hfalsy]

/-- C7 witness: a clean status-0 exit whose output parses to a response
with a populated error field raises the transformation failure. -/
theorem C7_wasm_response_handling_witness :
    (wasmTransform "x" [] (fun _ => ⟨RunStatus.exitZero, "resp"⟩)
        (fun _ => some ⟨some "bad", some "c"⟩)).1
      = .transformFailed "esbuild transformation failed: bad" :=
  (((C7_wasm_response_handling "x" [] (fun _ => ⟨RunStatus.exitZero, "resp"⟩)
      (fun _ => some ⟨some "bad", some "c"⟩) (by decide)).2
    ⟨some "bad", some "c"⟩ "bad" (by decide) rfl).1 rfl (by decide))

/-- C10: a decoded sandbox response whose `error` field is the empty
string, or absent/null, is treated as success: the call returns the
`code` field (empty string when absent) and raises no transformation
failure. -/
theorem C10_falsy_error_is_success (code : String) (kwargs : Opts)
    (run : WasmRequest → WasmExec) (parse : String → Option WasmResponse)
    (resp : WasmResponse)
    (hdone : (run (buildWasmRequest code kwargs)).status ≠ .failed)
    (hout : (run (buildWasmRequest code kwargs)).output ≠ "")
    (hparse : parse (run (buildWasmRequest code kwargs)).output = some resp)
    (herr : resp.error = some "" ∨ resp.error = none) :
    (wasmTransform code kwargs run parse).1 = .ok (resp.code.getD "") ∧
    ∀ m, (wasmTransform code kwargs run parse).1 ≠ .transformFailed m := by
  have hfalsy : pyTruthyStr resp.error = false := by
    rcases herr with h | h <;> simp [pyTruthyStr, h]
  have hok : (wasmTransform code kwargs run parse).1 = .ok (resp.code.getD "") := by
    have hbody : (wasmTransform code kwargs run parse).1
        = wasmRespond parse (run (buildWasmRequest code kwargs)).output := by
      cases hst : (run (buildWasmRequest code kwargs)).status with
      | returned => simp [wasmTransform, wasmTransformBody, hst]
      | exitZero => simp [wasmTransform, wasmTransformBody, hst]
      | failed => exact absurd hst hdone
    rw [hbody]
    simp [wasmRespond, hout, hparse, hfalsy]
  exact ⟨hok, fun m hm => by rw [hok] at hm; exact WasmOutcome.noConfusion hm⟩

/-- C10 witness: an empty-string error field with a present code field
returns that code. -/
theorem C10_falsy_error_is_success_witness :
    (wasmTransform "x" [] (fun _ => ⟨RunStatus.returned, "resp"⟩)
        (fun _ => some ⟨some "", some "var y;"⟩)).1
      = .ok "var y;" :=
  (C10_falsy_error_is_success "x" [] (fun _ => ⟨RunStatus.returned, "resp"⟩)
      (fun _ => some ⟨some "", some "var y;"⟩) ⟨some "", some "var y;"⟩
      (by decide) (by decide) rfl (Or.inl rfl)).1

theorem scanSite_eq_none (fsExists : String → Bool) (ext : String)
    (ds : List String) (h : ∀ d ∈ ds, fsExists (sitePath d ext) = false) :
    scanSite fsExists (soFileName ext) ds = none := by
  induction ds with
  | nil => rfl
  | cons d rest ih =>
    have hd : fsExists (sitePath d ext) = false := h d (List.mem_cons_self d rest)
    simp only [scanSite, sitePath] at hd ⊢
    rw [hd]
    simp only [if_neg Bool.false_ne_true, Bool.false_eq_true, if_false]
    exact ih (fun d2 hd2 => h d2 (List.mem_cons_of_mem d hd2))

theorem scanSite_first (fsExists : String → Bool) (ext : String)
    (d : String) (post : List String) :
    ∀ pre, (∀ d2 ∈ pre, fsExists (sitePath d2 ext) = false) →
      fsExists (sitePath d ext) = true →
      scanSite fsExists (soFileName ext) (pre ++ d :: post)
        = some (sitePath d ext) := by
  intro pre
  induction pre with
  | nil =>
    intro _ hd
    simp only [List.nil_append, scanSite, sitePath] at hd ⊢
    rw [hd]
    simp
  | cons p rest ih =>
    intro hpre hd
    have hp : fsExists (sitePath p ext) = false :=
      hpre p (List.mem_cons_self p rest)
    simp only [List.cons_append, scanSite, sitePath] at hp ⊢
    rw [hp]
    simp only [Bool.false_eq_true, if_false]
    exact ih (fun d2 hd2 => hpre d2 (List.mem_cons_of_mem p hd2)) hd

/-- C8: native library resolution checks the primary path (the package
directory joined with the platform-specific filename) first; only when
that file is absent does it scan the site-packages directories in
order, returning the first match; when nothing matches, it yields no
path and adapter construction fails with the file-not-found error. -/
theorem C8_library_resolution (fsExists : String → Bool) (pkg ext : String)
    (siteDirs : List String) :
    (fsExists (joinPath pkg (soFileName ext)) = true →
      getLibPath fsExists pkg ext siteDirs
        = some (joinPath pkg (soFileName ext))) ∧
    (fsExists (joinPath pkg (soFileName ext)) = false →
      ∀ pre d post, siteDirs = pre ++ d :: post →
        (∀ d2 ∈ pre, fsExists (sitePath d2 ext) = false) →
        fsExists (sitePath d ext) = true →
        getLibPath fsExists pkg ext siteDirs = some (sitePath d ext)) ∧
    (fsExists (joinPath pkg (soFileName ext)) = false →
      (∀ d ∈ siteDirs, fsExists (sitePath d ext) = false) →
      getLibPath fsExists pkg ext siteDirs = none ∧
      ∀ load, nativeConstruct fsExists pkg ext siteDirs load
        = .error .fileNotFoundError) := by
  refine ⟨?_, ?_, ?_⟩
  · intro hp
    simp [getLibPath, hp]
  · intro hp pre d post hsplit hpre hd
    subst hsplit
    simp only [getLibPath, hp, Bool.false_eq_true, if_false]
    exact scanSite_first fsExists ext d post pre hpre hd
  · intro hp hall
    have hnone : getLibPath fsExists pkg ext siteDirs = none := by
      simp only [getLibPath, hp, Bool.false_eq_true, if_false]
      exact scanSite_eq_none fsExists ext siteDirs hall
    exact ⟨hnone, fun load => by simp [nativeConstruct, hnone]⟩

/-- C8 witness: with the primary path absent and only the second
site-packages directory holding the library, resolution returns that
second directory's path, and with nothing present construction fails. -/
theorem C8_library_resolution_witness :
    getLibPath (fun p => p == "/site2/esbuild_py/_esbuild.so") "/pkg" ".so"
        ["/site1", "/site2"]
      = some "/site2/esbuild_py/_esbuild.so" ∧
    nativeConstruct (fun _ => false) "/pkg" ".so" ["/site1", "/site2"]
        (fun _ => .ok ⟨true, true⟩)
      = .error .fileNotFoundError :=
  ⟨(C8_library_resolution (fun p => p == "/site2/esbuild_py/_esbuild.so")
      "/pkg" ".so" ["/site1", "/site2"]).2.1 (by decide)
      ["/site1"] "/site2" [] rfl (by decide) (by decide),
   ((C8_library_resolution (fun _ => false) "/pkg" ".so"
      ["/site1", "/site2"]).2.2 rfl (by simp)).2 (fun _ => .ok ⟨true, true⟩)⟩

/-- C2 counterexample: a load-time failure of the resolved library (a
plain `OSError` from the loader, here with the library present at the
primary path) does not fall through to the sandboxed adapter even
though sandboxed construction would succeed: the exception is not among
the caught classes and propagates out of module initialization. -/
theorem C2_fallback_counterexample :
    moduleInit
        (nativeConstruct (fun p => p == "/pkg/_esbuild.so") "/pkg" ".so" []
          (fun _ => .error .osError))
        (.ok ())
      = .error .osError ∧
    moduleInit
        (nativeConstruct (fun p => p == "/pkg/_esbuild.so") "/pkg" ".so" []
          (fun _ => .error .osError))
        (.ok ())
      ≠ .ok ⟨"wasm", some .wasmInst⟩ :=
  ⟨rfl, fun h => Except.noConfusion h⟩

/-- C2 (amended): for a native construction failure raised as
`ImportError` or `FileNotFoundError` — which covers the
library-file-not-found case, but not a load-time `OSError` or a
missing-symbol `AttributeError`, both of which propagate out of
initialization — the selector falls through to the sandboxed adapter;
if sandboxed construction also fails with a caught class, the state
becomes `"none"` with no instance and every subsequent transform or
build call raises the unavailability error with a stable, non-empty
message. -/
theorem C2_fallback_amended (natErr : ExcClass) (was : Except ExcClass Unit)
    (hc : caughtByFallback natErr = true) :
    (∀ u, was = .ok u →
      moduleInit (.error natErr) was = .ok ⟨"wasm", some .wasmInst⟩) ∧
    (∀ e2, was = .error e2 → caughtByFallback e2 = true →
      moduleInit (.error natErr) was = .ok ⟨"none", none⟩) ∧
    (∀ e2, was = .error e2 → caughtByFallback e2 = false →
      moduleInit (.error natErr) was = .error e2) ∧
    (∀ fsE pkg ext sites load, getLibPath fsE pkg ext sites = none →
      nativeConstruct fsE pkg ext sites load = .error .fileNotFoundError) ∧
    caughtByFallback .fileNotFoundError = true ∧
    caughtByFallback .importError = true ∧
    caughtByFallback .osError = false ∧
    caughtByFallback .attributeError = false ∧
    (∀ d, transformFacade ⟨"none", none⟩ d = .raised transformUnavailableMsg) ∧
    (∀ d, buildFacade ⟨"none", none⟩ d = .raised buildUnavailableMsg) ∧
    transformUnavailableMsg ≠ "" ∧
    buildUnavailableMsg ≠ "" := by
  refine ⟨?_, ?_, ?_, ?_, rfl, rfl, rfl, rfl, fun _ => rfl, fun _ => rfl,
    by decide, by decide⟩
  · intro u hw
    subst hw
    simp [moduleInit, hc]
  · intro e2 hw hc2
    subst hw
    simp [moduleInit, hc, hc2]
  · intro e2 hw hc2
    subst hw
    simp [moduleInit, hc, hc2]
  · intro fsE pkg ext sites load hnone
    simp [nativeConstruct, hnone]

/-- C2 witness: a native `FileNotFoundError` followed by a sandboxed
`ImportError` (missing wasmtime) leaves the state unavailable, and a
subsequent transform raises the stable unavailability message. -/
theorem C2_fallback_amended_witness :
    moduleInit (.error .fileNotFoundError) (.error .importError)
      = .ok ⟨"none", none⟩ ∧
    transformFacade ⟨"none", none⟩ (fun _ => .ok "")
      = .raised transformUnavailableMsg ∧
    transformUnavailableMsg ≠ "" :=
  ⟨(C2_fallback_amended .fileNotFoundError (.error .importError) rfl).2.1
      .importError rfl rfl,
   (C2_fallback_amended .fileNotFoundError (.error .importError)
      rfl).2.2.2.2.2.2.2.2.1 (fun _ => .ok ""),
   (C2_fallback_amended .fileNotFoundError (.error .importError)
      rfl).2.2.2.2.2.2.2.2.2.2.1⟩

/-- C3: whenever a backend instance is active, the public `build`
delegates to that adapter's `build` and surfaces its outcome unchanged;
a successful adapter build yields the dictionary with its `errors` and
`warnings` lists, and an adapter error is re-raised as is. -/
theorem C3_build_delegation (st : ModuleState) (i : BackendInstance)
    (outcome : Except String BuildResult)
    (h : st.backendInstance = some i) :
    (∀ d, buildFacade st d = d i) ∧
    (∀ r, outcome = .ok r →
      buildFacade st (fun _ => adapterBuild outcome)
        = .ok { errors := r.errors, warnings := r.warnings }) ∧
    (∀ m, outcome = .error m →
      buildFacade st (fun _ => adapterBuild outcome) = .raised m) := by
  refine ⟨?_, ?_, ?_⟩
  · intro d
    simp [buildFacade, h]
  · intro r hr
    subst hr
    simp [buildFacade, h, adapterBuild]
  · intro m hm
    subst hm
    simp [buildFacade, h, adapterBuild]

/-- C3 witness: with the wasm instance active and an adapter build
returning empty diagnostic lists, the facade returns that result. -/
theorem C3_build_delegation_witness :
    buildFacade ⟨"wasm", some .wasmInst⟩
        (fun _ => adapterBuild (.ok ⟨[], []⟩))
      = .ok ⟨[], []⟩ :=
  (C3_build_delegation ⟨"wasm", some .wasmInst⟩ .wasmInst
      (.ok ⟨[], []⟩) rfl).2.1 ⟨[], []⟩ rfl

/-- C9: whenever module initialization completes, the `BACKEND` string
is exactly one of `"native"`, `"wasm"` and `"none"`; the instance is
`None` iff the string is `"none"`; the public transform and build raise
the unavailability error exactly when the instance is `None` and
delegate otherwise; and both consult only the instance — two states
with the same instance behave identically whatever their `BACKEND`
strings. -/
theorem C9_backend_state_invariant (nat was : Except ExcClass Unit)
    (st : ModuleState) (h : moduleInit nat was = .ok st) :
    (st.BACKEND = "native" ∨ st.BACKEND = "wasm" ∨ st.BACKEND = "none") ∧
    (st.backendInstance = none ↔ st.BACKEND = "none") ∧
    (st.backendInstance = none →
      (∀ d, transformFacade st d = .raised transformUnavailableMsg) ∧
      (∀ d, buildFacade st d = .raised buildUnavailableMsg)) ∧
    (∀ i, st.backendInstance = some i →
      (∀ d, transformFacade st d = d i) ∧ (∀ d, buildFacade st d = d i)) ∧
    (∀ st2, st2.backendInstance = st.backendInstance →
      (∀ d, transformFacade st2 d = transformFacade st d) ∧
      (∀ d, buildFacade st2 d = buildFacade st d)) := by
  have hstates : st = ⟨"native", some .nativeInst⟩ ∨
      st = ⟨"wasm", some .wasmInst⟩ ∨ st = ⟨"none", none⟩ := by
    cases nat with
    | ok u =>
      simp only [moduleInit, Except.ok.injEq] at h
      exact Or.inl h.symm
    | error e =>
      cases hce : caughtByFallback e with
      | false => simp [moduleInit, hce] at h
      | true =>
        cases was with
        | ok u =>
          simp only [moduleInit, hce, if_true, Except.ok.injEq] at h
          exact Or.inr (Or.inl h.symm)
        | error e2 =>
          cases hce2 : caughtByFallback e2 with
          | false => simp [moduleInit, hce, hce2] at h
          | true =>
            simp only [moduleInit, hce, hce2, if_true, Except.ok.injEq] at h
            exact Or.inr (Or.inr h.symm)
  have hconsult : ∀ st2 : ModuleState, st2.backendInstance = st.backendInstance →
      (∀ d, transformFacade st2 d = transformFacade st d) ∧
      (∀ d, buildFacade st2 d = buildFacade st d) := by
    intro st2 h2
    constructor <;> intro d <;>
      simp only [transformFacade, buildFacade, h2]
  rcases hstates with hst | hst | hst <;> subst hst
  · exact ⟨Or.inl rfl, by simp, by simp,
      fun i hi => by
        cases hi
        exact ⟨fun d => rfl, fun d => rfl⟩,
      hconsult⟩
  · exact ⟨Or.inr (Or.inl rfl), by simp, by simp,
      fun i hi => by
        cases hi
        exact ⟨fun d => rfl, fun d => rfl⟩,
      hconsult⟩
  · exact ⟨Or.inr (Or.inr rfl), by simp, by
      exact fun _ => ⟨fun d => rfl, fun d => rfl⟩,
      fun i hi => by simp at hi,
      hconsult⟩

/-- C9 witness: the state reached when native fails with
`FileNotFoundError` and wasm succeeds satisfies the instance-iff-none
equivalence. -/
theorem C9_backend_state_invariant_witness :
    ((ModuleState.mk "wasm" (some .wasmInst)).backendInstance = none ↔
      (ModuleState.mk "wasm" (some .wasmInst)).BACKEND = "none") :=
  (C9_backend_state_invariant (.error .fileNotFoundError) (.ok ())
      ⟨"wasm", some .wasmInst⟩ rfl).2.1
